import Mathlib

/-!
Verification development for two modules of the repository:

  - src/src/lib/providers/openrouter.ts   (OpenRouter provider loader)
  - src/ui/components/SettingsDialog.tsx  (settings dialog component)

The TypeScript functions are shallowly embedded as pure Lean functions.
JavaScript runtime behaviour is modelled explicitly:

  - a value of TypeScript type `string | null` or `string | undefined` is
    an `Option String` (`none` is `null` / `undefined`);
  - the JavaScript expression `x || y` on such a value is `jsOr` (the empty
    string and `null` / `undefined` are falsy, every other string is truthy);
  - `localStorage` is a total map `String to Option String` (`getItem`
    returns `none` when the key is absent);
  - an expression that throws (for example reading `.name` on the result of
    indexing an empty array, or a rejected `await`) is modelled by `Option`
    or `Except` results, with the try/catch structure of the source made
    explicit.
-/

set_option autoImplicit false

/-- The JavaScript truthiness test `!x` for `x : string | undefined | null`:
falsy exactly when the value is absent or the empty string. -/
def jsFalsy : Option String → Bool
  | some s => s == ""
  | none => true

/-- The JavaScript expression `x || y` for `x : string | undefined | null`
and a string default `y`. -/
def jsOr (x : Option String) (y : String) : String :=
  match x with
  | some s => if s = "" then y else s
  | none => y

/-- A model descriptor as served in the configuration document
(interface `ModelInfo` of SettingsDialog.tsx). -/
structure ModelInfo where
  name : String
  displayName : String
deriving DecidableEq, Repr

/-! ## OpenRouter provider loader (src/src/lib/providers/openrouter.ts) -/

/-- The three process-wide configuration values read by the loader via
`getOpenRouterApiKey`, `getOpenRouterHttpReferer`, `getOpenRouterAppName`.
Each getter may yield `undefined`, hence `Option String`. -/
structure OpenRouterConfig where
  openRouterApiKey : Option String
  httpReferer : Option String
  appName : Option String
deriving DecidableEq, Repr

/-- The observable constructor arguments of the `new ChatOpenAI(...)` call:
the fields of its two argument objects, including the two default headers. -/
structure ChatClientParams where
  openAIApiKey : String
  modelName : String
  temperature : ℚ
  baseURL : String
  httpReferer : String
  xTitle : String
deriving DecidableEq, Repr

/-- One entry of the `chatModels` object built by the loader:
a display name together with the constructed client. A client that was
constructed without throwing holds exactly the parameters it was given. -/
structure ChatModelEntry where
  displayName : String
  model : ChatClientParams
deriving DecidableEq, Repr

/-- The outcome of one run of the loader: the returned mapping (as an
ordered association list), whether the `new ChatOpenAI(...)` construction
was reached, and whether the catch branch logged an error. -/
structure LoaderResult where
  models : List (String × ChatModelEntry)
  constructionAttempted : Bool
  loggedError : Bool
deriving DecidableEq, Repr

/-- The `ChatOpenAI` constructor arguments assembled by the loader body
(lines 16 to 29 of openrouter.ts). -/
def openRouterParams (cfg : OpenRouterConfig) : ChatClientParams :=
  { openAIApiKey := cfg.openRouterApiKey.getD ""
    modelName := "google/gemini-2.0-flash-thinking-exp:free"
    temperature := 0.7
    baseURL := "https://openrouter.ai/api/v1"
    httpReferer := jsOr cfg.httpReferer ""
    xTitle := jsOr cfg.appName "" }

/-- The try block of the loader: constructing the `chatModels` object.
`constructThrows` is the behaviour of the `ChatOpenAI` constructor on the
given parameters; when it does not throw, the built object is the single
entry keyed by the literal `gemini-2`. -/
def tryBuildChatModels (cfg : OpenRouterConfig)
    (constructThrows : ChatClientParams → Bool) :
    Except String (List (String × ChatModelEntry)) :=
  if constructThrows (openRouterParams cfg) then
    Except.error "construction failed"
  else
    Except.ok [("gemini-2",
      { displayName := "Gemini 2.0", model := openRouterParams cfg })]

/-- `loadOpenRouterChatModels` of openrouter.ts. The `Except` return type
records whether the async function rejects (propagates an error) towards
its caller; by the try/catch structure of the source it never does. -/
def loadOpenRouterChatModels (cfg : OpenRouterConfig)
    (constructThrows : ChatClientParams → Bool) :
    Except String LoaderResult :=
  if jsFalsy cfg.openRouterApiKey then
    Except.ok { models := [], constructionAttempted := false, loggedError := false }
  else
    match tryBuildChatModels cfg constructThrows with
    | Except.ok chatModels =>
        Except.ok { models := chatModels, constructionAttempted := true, loggedError := false }
    | Except.error _ =>
        Except.ok { models := [], constructionAttempted := true, loggedError := true }

/-! ## Settings dialog (src/ui/components/SettingsDialog.tsx) -/

/-- The configuration document (interface `SettingsType`). The two provider
mappings are JavaScript objects whose keys are enumerated in insertion
order, modelled as ordered association lists. -/
structure SettingsType where
  chatModelProviders : List (String × List ModelInfo)
  embeddingModelProviders : List (String × List ModelInfo)
  openaiApiKey : String
  groqApiKey : String
  anthropicApiKey : String
  geminiApiKey : String
  openrouterApiKey : String
  openrouterHttpReferer : String
  openrouterAppName : String
  ollamaApiUrl : String
deriving DecidableEq, Repr

/-- The browser `localStorage`: `getItem` yields `none` for an absent key. -/
abbrev Storage : Type := String → Option String

/-- `localStorage.getItem`. -/
def getItem (s : Storage) (k : String) : Option String := s k

/-- `localStorage.setItem`. -/
def setItem (s : Storage) (k v : String) : Storage :=
  fun q => if q = k then some v else s q

/-- A storage with no keys set. -/
def emptyStorage : Storage := fun _ => none

/-- The component state of `SettingsDialog`: the `useState` hooks together
with the `isOpen` prop (writable through the `setIsOpen` callback). -/
structure DialogState where
  config : Option SettingsType
  chatModels : List (String × List ModelInfo)
  embeddingModels : List (String × List ModelInfo)
  selectedChatModelProvider : Option String
  selectedChatModel : Option String
  selectedEmbeddingModelProvider : Option String
  selectedEmbeddingModel : Option String
  customOpenAIApiKey : String
  customOpenAIBaseURL : String
  isLoading : Bool
  isUpdating : Bool
  isOpen : Bool
deriving DecidableEq, Repr

/-- The initial hook values of the component, with the dialog just opened. -/
def initialState : DialogState :=
  { config := none
    chatModels := []
    embeddingModels := []
    selectedChatModelProvider := none
    selectedChatModel := none
    selectedEmbeddingModelProvider := none
    selectedEmbeddingModel := none
    customOpenAIApiKey := ""
    customOpenAIBaseURL := ""
    isLoading := false
    isUpdating := false
    isOpen := true }

/-- Key lookup in a provider mapping: the JavaScript member access
`providers[key]`, which is `undefined` for an absent key. -/
def lookupProv (m : List (String × List ModelInfo)) (k : String) :
    Option (List ModelInfo) :=
  (m.find? (fun p => p.1 = k)).map (fun p => p.2)

/-- The optional-chaining expression
`providers?.[p]?.[0]?.name ?? ""` used for the default model. -/
def firstModelName (m : List (String × List ModelInfo)) (p : String) : String :=
  match lookupProv m p with
  | none => ""
  | some ms =>
    match ms.head? with
    | none => ""
    | some mi => mi.name

/-- Whether the form body renders: the JSX guard `config && !isLoading`. -/
def formVisible (st : DialogState) : Bool :=
  st.config.isSome && !st.isLoading

/-- The ternary `keys.length > 0 ? keys[0] : ""` used for the default
provider. -/
def headKeyOrEmpty (keys : List String) : String :=
  if keys.length > 0 then keys.headD "" else ""

/-- The whole `fetchConfig` run of the open effect (lines 97 to 135 of
SettingsDialog.tsx), from the state `st` and storage contents `storage`,
given the outcome `fetched` of the awaited `fetch` plus `res.json()`.
Returns the final component state together with a flag recording whether
the catch branch logged a fetch error. The finally clause clears
`isLoading` on both paths. -/
def fetchConfig (st : DialogState) (storage : Storage)
    (fetched : Except Unit SettingsType) : DialogState × Bool :=
  match fetched with
  | Except.error _ => ({ st with isLoading := false }, true)
  | Except.ok data =>
      let chatModelProvidersKeys := data.chatModelProviders.map (fun p => p.1)
      let embeddingModelProvidersKeys := data.embeddingModelProviders.map (fun p => p.1)
      let defaultChatModelProvider := headKeyOrEmpty chatModelProvidersKeys
      let defaultEmbeddingModelProvider := headKeyOrEmpty embeddingModelProvidersKeys
      let chatModelProvider :=
        jsOr (getItem storage "chatModelProvider") defaultChatModelProvider
      let chatModel :=
        jsOr (getItem storage "chatModel")
          (firstModelName data.chatModelProviders chatModelProvider)
      let embeddingModelProvider :=
        jsOr (getItem storage "embeddingModelProvider") defaultEmbeddingModelProvider
      let embeddingModel :=
        jsOr (getItem storage "embeddingModel")
          (firstModelName data.embeddingModelProviders embeddingModelProvider)
      ({ st with
          config := some data
          selectedChatModelProvider := some chatModelProvider
          selectedChatModel := some chatModel
          selectedEmbeddingModelProvider := some embeddingModelProvider
          selectedEmbeddingModel := some embeddingModel
          customOpenAIApiKey := jsOr (getItem storage "openAIApiKey") ""
          customOpenAIBaseURL := jsOr (getItem storage "openAIBaseURL") ""
          chatModels := data.chatModelProviders
          embeddingModels := data.embeddingModelProviders
          isLoading := false }, false)

/-- The conditional write `if (x) localStorage.setItem(k, x)` for a
selection `x : string | null`. -/
def setItemIfTruthy (s : Storage) (k : String) (v : Option String) : Storage :=
  if jsFalsy v then s else setItem s k (v.getD "")

/-- The outcome of one `handleSubmit` run: final component state, final
storage contents, whether the POST was issued, whether
`window.location.reload()` ran, and whether the catch branch logged a
save error. -/
structure SubmitResult where
  state : DialogState
  storage : Storage
  submitted : Bool
  reloaded : Bool
  loggedSaveError : Bool

/-- The `handleSubmit` run (lines 141 to 167 of SettingsDialog.tsx), given
the outcome `submit` of the awaited POST. When `config` is null the handler
returns at once. Otherwise the POST is issued; if it resolves, the six
`localStorage` writes run in source order (the first four guarded by
truthiness of the selection, the last two unconditional); if it rejects,
control jumps to the catch branch, skipping every write. The finally
clause then clears `isUpdating`, closes the dialog and reloads. -/
def handleSubmit (st : DialogState) (storage : Storage)
    (submit : Except Unit Unit) : SubmitResult :=
  match st.config with
  | none =>
      { state := st, storage := storage
        submitted := false, reloaded := false, loggedSaveError := false }
  | some _ =>
      match submit with
      | Except.ok _ =>
          let s1 := setItemIfTruthy storage "chatModelProvider" st.selectedChatModelProvider
          let s2 := setItemIfTruthy s1 "chatModel" st.selectedChatModel
          let s3 := setItemIfTruthy s2 "embeddingModelProvider" st.selectedEmbeddingModelProvider
          let s4 := setItemIfTruthy s3 "embeddingModel" st.selectedEmbeddingModel
          let s5 := setItem s4 "openAIApiKey" st.customOpenAIApiKey
          let s6 := setItem s5 "openAIBaseURL" st.customOpenAIBaseURL
          { state := { st with isUpdating := false, isOpen := false }
            storage := s6, submitted := true, reloaded := true, loggedSaveError := false }
      | Except.error _ =>
          { state := { st with isUpdating := false, isOpen := false }
            storage := storage, submitted := true, reloaded := true, loggedSaveError := true }

/-- The onChange handler of the chat provider selector (lines 217 to 227).
Selecting `custom_openai` clears the model; any other value reads
`config.chatModelProviders[value][0].name`, which throws (modelled as
`none`) when the key is absent or its list is empty. The provider update
itself precedes the possible throw. -/
def chatProviderOnChange (cfg : SettingsType) (st : DialogState)
    (value : String) : Option DialogState :=
  let st1 := { st with selectedChatModelProvider := some value }
  if value = "custom_openai" then
    some { st1 with selectedChatModel := some "" }
  else
    match lookupProv cfg.chatModelProviders value with
    | some (mi :: _) => some { st1 with selectedChatModel := some mi.name }
    | _ => none

/-- The onChange handler of the embedding provider selector (lines 333 to
339). It has no `custom_openai` branch: every value reads
`config.embeddingModelProviders[value][0].name`, throwing (modelled as
`none`) when the key is absent or its list is empty. -/
def embeddingProviderOnChange (cfg : SettingsType) (st : DialogState)
    (value : String) : Option DialogState :=
  let st1 := { st with selectedEmbeddingModelProvider := some value }
  match lookupProv cfg.embeddingModelProviders value with
  | some (mi :: _) => some { st1 with selectedEmbeddingModel := some mi.name }
  | _ => none

/-! ## Spec-side definitions and concrete fixtures -/

/-- Claim wording for the default selection rule: the locally stored value
if present, else the fallback. Used to compare the claim against the
source computation. -/
def storedOrElse (stored : Option String) (fallback : String) : String :=
  stored.getD fallback

/-- Amended selection rule: the locally stored value if present and
non-empty, else the fallback. -/
def storedNonemptyOrElse (stored : Option String) (fallback : String) : String :=
  match stored with
  | some s => if s = "" then fallback else s
  | none => fallback

/-- Spec wording: the first key of a provider mapping, else empty. -/
def specFirstKey (m : List (String × List ModelInfo)) : String :=
  match m with
  | [] => ""
  | (k, _) :: _ => k

/-- Spec wording: the first model name of the list of provider `p`, else
empty (also empty when `p` is not a key of the mapping). -/
def specFirstModelName (m : List (String × List ModelInfo)) (p : String) : String :=
  match lookupProv m p with
  | none => ""
  | some [] => ""
  | some (mi :: _) => mi.name

/-- The document of the spec example: providers
`a` with one model `x` and `b` with no models (both mappings). -/
def docAB : SettingsType :=
  { chatModelProviders := [("a", [{ name := "x", displayName := "X" }]), ("b", [])]
    embeddingModelProviders := [("a", [{ name := "x", displayName := "X" }]), ("b", [])]
    openaiApiKey := ""
    groqApiKey := ""
    anthropicApiKey := ""
    geminiApiKey := ""
    openrouterApiKey := ""
    openrouterHttpReferer := ""
    openrouterAppName := ""
    ollamaApiUrl := "" }

/-- A storage whose `chatModelProvider` key is present but holds the
empty string. -/
def storageEmptyPref : Storage := setItem emptyStorage "chatModelProvider" ""

/-- A fully configured OpenRouter configuration. -/
def cfgFull : OpenRouterConfig :=
  { openRouterApiKey := some "sk-or-test"
    httpReferer := some "https://example.org"
    appName := some "ExampleApp" }

/-- An OpenRouter configuration with no API key. -/
def cfgNoKey : OpenRouterConfig :=
  { openRouterApiKey := none
    httpReferer := some "https://example.org"
    appName := some "ExampleApp" }

/-- A `ChatOpenAI` constructor that never throws. -/
def alwaysNoThrow : ChatClientParams → Bool := fun _ => false

/-- A `ChatOpenAI` constructor that always throws. -/
def alwaysThrow : ChatClientParams → Bool := fun _ => true

/-- A dialog state that is in the loading phase with no document yet. -/
def stLoading : DialogState := { initialState with isLoading := true }

/-- A ready dialog state over `docAB` with a non-empty custom endpoint
API key field. -/
def stC2 : DialogState :=
  { initialState with
      config := some docAB
      selectedChatModelProvider := some "a"
      selectedChatModel := some "x"
      selectedEmbeddingModelProvider := some "a"
      selectedEmbeddingModel := some "x"
      customOpenAIApiKey := "secret-key" }

/-- A document whose embedding provider mapping contains the key
`custom_openai` with one model. -/
def docC4 : SettingsType :=
  { docAB with
      embeddingModelProviders :=
        [("custom_openai", [{ name := "emb-model", displayName := "Emb Model" }])] }

/-- A document whose embedding provider mapping contains the key
`custom_openai` with an empty model list. -/
def docC10 : SettingsType :=
  { docAB with embeddingModelProviders := [("custom_openai", [])] }

/-! ## Helper lemmas -/

theorem jsOr_eq_storedNonemptyOrElse (x : Option String) (y : String) :
    jsOr x y = storedNonemptyOrElse x y := by
  cases x <;> rfl

theorem headKeyOrEmpty_keys_eq_specFirstKey (m : List (String × List ModelInfo)) :
    headKeyOrEmpty (m.map (fun p => p.1)) = specFirstKey m := by
  cases m with
  | nil => rfl
  | cons p t => simp [headKeyOrEmpty, specFirstKey]

theorem firstModelName_eq_specFirstModelName
    (m : List (String × List ModelInfo)) (p : String) :
    firstModelName m p = specFirstModelName m p := by
  unfold firstModelName specFirstModelName
  cases h : lookupProv m p with
  | none => rfl
  | some ms => cases ms <;> rfl

theorem setItemIfTruthy_apply (s : Storage) (k : String) (v : Option String)
    (q : String) :
    setItemIfTruthy s k v q =
      if q = k then (if jsFalsy v then s q else some (v.getD "")) else s q := by
  unfold setItemIfTruthy setItem
  by_cases hv : jsFalsy v <;> by_cases hq : q = k <;> simp [hv, hq]

/-! ## Claim theorems: OpenRouter provider loader -/

/-- C6: when the aggregation-service API key is absent (empty or
undefined), the loader returns an empty mapping immediately: the
`ChatOpenAI` construction is never reached (hence no client is built and
no network activity can originate from the loader), nothing is logged and
no error propagates, for every value of the attribution header and
application name settings and for every constructor behaviour. -/
theorem c6_no_api_key_empty_result (cfg : OpenRouterConfig)
    (constructThrows : ChatClientParams → Bool)
    (h : jsFalsy cfg.openRouterApiKey = true) :
    loadOpenRouterChatModels cfg constructThrows =
      Except.ok { models := [], constructionAttempted := false, loggedError := false } := by
  unfold loadOpenRouterChatModels
  simp [h]

/-- Witness for C6 at the concrete configuration with no API key. -/
theorem c6_no_api_key_empty_result_witness :
    loadOpenRouterChatModels cfgNoKey alwaysNoThrow =
      Except.ok { models := [], constructionAttempted := false, loggedError := false } :=
  c6_no_api_key_empty_result cfgNoKey alwaysNoThrow (by decide)

/-- C7: in every run where the `ChatOpenAI` construction throws, the
loader catches the error, logs it, and returns an empty mapping; moreover
no run of the loader ever propagates an error to its caller. -/
theorem c7_construction_failure_contained :
    (∀ (cfg : OpenRouterConfig) (constructThrows : ChatClientParams → Bool),
        jsFalsy cfg.openRouterApiKey = false →
        constructThrows (openRouterParams cfg) = true →
        loadOpenRouterChatModels cfg constructThrows =
          Except.ok { models := [], constructionAttempted := true, loggedError := true })
  ∧ (∀ (cfg : OpenRouterConfig) (constructThrows : ChatClientParams → Bool)
        (e : String),
        loadOpenRouterChatModels cfg constructThrows ≠ Except.error e) := by
  constructor
  · intro cfg f hkey hthrow
    unfold loadOpenRouterChatModels tryBuildChatModels
    simp [hkey, hthrow]
  · intro cfg f e
    unfold loadOpenRouterChatModels tryBuildChatModels
    by_cases hkey : jsFalsy cfg.openRouterApiKey <;>
      by_cases hthrow : f (openRouterParams cfg) <;>
        simp [hkey, hthrow]

/-- Witness for C7 at a concrete configuration whose constructor throws. -/
theorem c7_construction_failure_contained_witness :
    loadOpenRouterChatModels cfgFull alwaysThrow =
      Except.ok { models := [], constructionAttempted := true, loggedError := true }
  ∧ loadOpenRouterChatModels cfgFull alwaysThrow ≠ Except.error "construction failed" :=
  ⟨c7_construction_failure_contained.1 cfgFull alwaysThrow (by decide) (by decide),
   c7_construction_failure_contained.2 cfgFull alwaysThrow "construction failed"⟩

/-- C5 counterexample: with API key `sk-or-test`, attribution header
`https://example.org` and application name `ExampleApp`, the single
returned entry has display name `Gemini 2.0`, which differs from both
configured attribution values, refuting the claim that the display name
matches the configured attribution values. -/
theorem c5_counterexample :
    (loadOpenRouterChatModels cfgFull alwaysNoThrow).toOption.map
        (fun r => r.models.map (fun e => (e.1, e.2.displayName)))
      = some [("gemini-2", "Gemini 2.0")]
  ∧ ("Gemini 2.0" : String) ≠ "https://example.org"
  ∧ ("Gemini 2.0" : String) ≠ "ExampleApp" := by
  refine ⟨rfl, by decide, by decide⟩

/-- C5 (amended): when the API key is configured (non-empty) and the
construction does not throw, the loader returns exactly one entry keyed
`gemini-2`, binding the fixed remote model identifier at temperature 0.7,
whose request headers HTTP-Referer and X-Title match the configured
attribution values (empty string when unset) and whose display name is
the fixed string `Gemini 2.0`. -/
theorem c5_loader_single_entry (cfg : OpenRouterConfig)
    (constructThrows : ChatClientParams → Bool)
    (hkey : jsFalsy cfg.openRouterApiKey = false)
    (hok : constructThrows (openRouterParams cfg) = false) :
    loadOpenRouterChatModels cfg constructThrows =
      Except.ok
        { models := [("gemini-2",
            { displayName := "Gemini 2.0"
              model :=
                { openAIApiKey := cfg.openRouterApiKey.getD ""
                  modelName := "google/gemini-2.0-flash-thinking-exp:free"
                  temperature := 0.7
                  baseURL := "https://openrouter.ai/api/v1"
                  httpReferer := jsOr cfg.httpReferer ""
                  xTitle := jsOr cfg.appName "" } })]
          constructionAttempted := true
          loggedError := false } := by
  unfold loadOpenRouterChatModels tryBuildChatModels
  rw [hkey, hok]
  rfl

/-- Witness for C5 (amended) at the fully configured fixture. -/
theorem c5_loader_single_entry_witness :
    loadOpenRouterChatModels cfgFull alwaysNoThrow =
      Except.ok
        { models := [("gemini-2",
            { displayName := "Gemini 2.0"
              model :=
                { openAIApiKey := cfgFull.openRouterApiKey.getD ""
                  modelName := "google/gemini-2.0-flash-thinking-exp:free"
                  temperature := 0.7
                  baseURL := "https://openrouter.ai/api/v1"
                  httpReferer := jsOr cfgFull.httpReferer ""
                  xTitle := jsOr cfgFull.appName "" } })]
          constructionAttempted := true
          loggedError := false } :=
  c5_loader_single_entry cfgFull alwaysNoThrow (by decide) (by decide)

/-! ## Claim theorems: settings dialog -/

/-- C1 counterexample: for the document with providers `a` (one model `x`)
and `b` (no models) and a storage whose `chatModelProvider` key is present
but holds the empty string, the claim (stored value if present, else first
key) predicts the empty string as default chat provider, but the source
computes `a`. -/
theorem c1_counterexample :
    getItem storageEmptyPref "chatModelProvider" = some ""
  ∧ (fetchConfig initialState storageEmptyPref (Except.ok docAB)).1.selectedChatModelProvider
      = some "a"
  ∧ storedOrElse (getItem storageEmptyPref "chatModelProvider")
      (specFirstKey docAB.chatModelProviders) = ""
  ∧ (some "a" : Option String) ≠ some "" := by
  refine ⟨rfl, rfl, rfl, by decide⟩

/-- C1 (amended): on successful fetch, for every document and storage
state, the default chat and embedding provider is the locally stored value
if present and non-empty, else the first key of the corresponding provider
mapping, else empty; the default chat and embedding model is the locally
stored value if present and non-empty, else the first model name of the
resolved provider, else empty. -/
theorem c1_defaults_amended (st : DialogState) (storage : Storage)
    (data : SettingsType) :
    ((fetchConfig st storage (Except.ok data)).1.selectedChatModelProvider
        = some (storedNonemptyOrElse (getItem storage "chatModelProvider")
            (specFirstKey data.chatModelProviders)))
  ∧ ((fetchConfig st storage (Except.ok data)).1.selectedChatModel
        = some (storedNonemptyOrElse (getItem storage "chatModel")
            (specFirstModelName data.chatModelProviders
              (storedNonemptyOrElse (getItem storage "chatModelProvider")
                (specFirstKey data.chatModelProviders)))))
  ∧ ((fetchConfig st storage (Except.ok data)).1.selectedEmbeddingModelProvider
        = some (storedNonemptyOrElse (getItem storage "embeddingModelProvider")
            (specFirstKey data.embeddingModelProviders)))
  ∧ ((fetchConfig st storage (Except.ok data)).1.selectedEmbeddingModel
        = some (storedNonemptyOrElse (getItem storage "embeddingModel")
            (specFirstModelName data.embeddingModelProviders
              (storedNonemptyOrElse (getItem storage "embeddingModelProvider")
                (specFirstKey data.embeddingModelProviders))))) := by
  refine ⟨?_, ?_, ?_, ?_⟩ <;>
    simp only [fetchConfig, jsOr_eq_storedNonemptyOrElse,
      headKeyOrEmpty_keys_eq_specFirstKey, firstModelName_eq_specFirstModelName]

/-- C3 counterexample: a run in which the fetch errors, started from the
loading phase, ends with the loading flag cleared (by the finally clause),
refuting the claim that the loading flag is never cleared. -/
theorem c3_counterexample :
    (fetchConfig stLoading emptyStorage (Except.error ())).2 = true
  ∧ (fetchConfig stLoading emptyStorage (Except.error ())).1.isLoading = false :=
  ⟨rfl, rfl⟩

/-- C3 (amended): when the fetch on dialog open fails and no document was
previously loaded, the failure is only logged; the loading flag is cleared
by the finally clause, every other state field is unchanged (in particular
the document stays absent), and the form body never renders, so the form
never becomes interactive. -/
theorem c3_fetch_failure_amended (st : DialogState) (storage : Storage)
    (h : st.config = none) :
    (fetchConfig st storage (Except.error ())).2 = true
  ∧ (fetchConfig st storage (Except.error ())).1 = { st with isLoading := false }
  ∧ formVisible (fetchConfig st storage (Except.error ())).1 = false := by
  refine ⟨rfl, rfl, ?_⟩
  simp [formVisible, fetchConfig, h]

/-- Witness for C3 (amended) at the concrete loading-phase state. -/
theorem c3_fetch_failure_amended_witness :
    (fetchConfig stLoading emptyStorage (Except.error ())).2 = true
  ∧ (fetchConfig stLoading emptyStorage (Except.error ())).1
      = { stLoading with isLoading := false }
  ∧ formVisible (fetchConfig stLoading emptyStorage (Except.error ())).1 = false :=
  c3_fetch_failure_amended stLoading emptyStorage rfl

/-- C2 counterexample: a save run over a loaded document whose backend
submit rejects issues the POST but skips every storage write: the
custom-endpoint API key field holds the non-empty value `secret-key`, yet
after the run the `openAIApiKey` entry (and every other entry) is still
absent, refuting the claim that the endpoint key and URL entries are
written unconditionally on save. -/
theorem c2_counterexample :
    stC2.customOpenAIApiKey = "secret-key"
  ∧ (handleSubmit stC2 emptyStorage (Except.error ())).submitted = true
  ∧ (handleSubmit stC2 emptyStorage (Except.error ())).storage "openAIApiKey" = none
  ∧ (handleSubmit stC2 emptyStorage (Except.error ())).storage "chatModelProvider" = none :=
  ⟨rfl, rfl, rfl, rfl⟩

/-- C2 (amended): on a save over a loaded document whose backend submit
resolves, the four provider and model entries are each written exactly
when the corresponding current selection is truthy (non-null and
non-empty), a previously stored value being left unchanged otherwise,
and the custom-endpoint API key and base URL entries are written
unconditionally with the current field values, even when empty; when the
submit rejects, no entry at all is written. -/
theorem c2_persistence_amended (st : DialogState) (storage : Storage)
    (h : st.config.isSome = true) :
    ((handleSubmit st storage (Except.ok ())).storage "chatModelProvider"
        = if jsFalsy st.selectedChatModelProvider then storage "chatModelProvider"
          else some (st.selectedChatModelProvider.getD ""))
  ∧ ((handleSubmit st storage (Except.ok ())).storage "chatModel"
        = if jsFalsy st.selectedChatModel then storage "chatModel"
          else some (st.selectedChatModel.getD ""))
  ∧ ((handleSubmit st storage (Except.ok ())).storage "embeddingModelProvider"
        = if jsFalsy st.selectedEmbeddingModelProvider then storage "embeddingModelProvider"
          else some (st.selectedEmbeddingModelProvider.getD ""))
  ∧ ((handleSubmit st storage (Except.ok ())).storage "embeddingModel"
        = if jsFalsy st.selectedEmbeddingModel then storage "embeddingModel"
          else some (st.selectedEmbeddingModel.getD ""))
  ∧ ((handleSubmit st storage (Except.ok ())).storage "openAIApiKey"
        = some st.customOpenAIApiKey)
  ∧ ((handleSubmit st storage (Except.ok ())).storage "openAIBaseURL"
        = some st.customOpenAIBaseURL)
  ∧ (∀ k, (handleSubmit st storage (Except.error ())).storage k = storage k) := by
  rcases hc : st.config with _ | doc
  · rw [hc] at h
    simp at h
  · refine ⟨?_, ?_, ?_, ?_, ?_, ?_, ?_⟩ <;>
      simp [handleSubmit, hc, setItemIfTruthy_apply, setItem]

/-- Witness for C2 (amended) at the concrete ready state `stC2`. -/
theorem c2_persistence_amended_witness :
    ((handleSubmit stC2 emptyStorage (Except.ok ())).storage "chatModelProvider"
        = if jsFalsy stC2.selectedChatModelProvider then emptyStorage "chatModelProvider"
          else some (stC2.selectedChatModelProvider.getD ""))
  ∧ ((handleSubmit stC2 emptyStorage (Except.ok ())).storage "chatModel"
        = if jsFalsy stC2.selectedChatModel then emptyStorage "chatModel"
          else some (stC2.selectedChatModel.getD ""))
  ∧ ((handleSubmit stC2 emptyStorage (Except.ok ())).storage "embeddingModelProvider"
        = if jsFalsy stC2.selectedEmbeddingModelProvider then emptyStorage "embeddingModelProvider"
          else some (stC2.selectedEmbeddingModelProvider.getD ""))
  ∧ ((handleSubmit stC2 emptyStorage (Except.ok ())).storage "embeddingModel"
        = if jsFalsy stC2.selectedEmbeddingModel then emptyStorage "embeddingModel"
          else some (stC2.selectedEmbeddingModel.getD ""))
  ∧ ((handleSubmit stC2 emptyStorage (Except.ok ())).storage "openAIApiKey"
        = some stC2.customOpenAIApiKey)
  ∧ ((handleSubmit stC2 emptyStorage (Except.ok ())).storage "openAIBaseURL"
        = some stC2.customOpenAIBaseURL)
  ∧ (∀ k, (handleSubmit stC2 emptyStorage (Except.error ())).storage k = emptyStorage k) :=
  c2_persistence_amended stC2 emptyStorage (by decide)

/-- C4 counterexample: for a document whose embedding provider mapping
has the key `custom_openai` with one model `emb-model`, selecting
`custom_openai` in the embedding provider selector sets the embedding
model to `emb-model`, not to the empty string, refuting the claim that
the custom-endpoint reset applies to both selectors. -/
theorem c4_counterexample :
    (embeddingProviderOnChange docC4 initialState "custom_openai").map
        (fun s => s.selectedEmbeddingModel) = some (some "emb-model")
  ∧ (some (some "emb-model") : Option (Option String)) ≠ some (some "") :=
  ⟨rfl, by decide⟩

/-- C4 (amended): in the chat provider selector, selecting `custom_openai`
resets the chat model to the empty string, and selecting any other
provider whose model list is non-empty resets the chat model to the first
model name of that list; the embedding provider selector has no
custom-endpoint branch: selecting any provider whose model list is
non-empty, the literal `custom_openai` included, resets the embedding
model to the first model name of that list. -/
theorem c4_provider_selection_amended :
    (∀ (cfg : SettingsType) (st : DialogState),
        chatProviderOnChange cfg st "custom_openai" =
          some { st with selectedChatModelProvider := some "custom_openai"
                         selectedChatModel := some "" })
  ∧ (∀ (cfg : SettingsType) (st : DialogState) (v : String)
        (mi : ModelInfo) (rest : List ModelInfo),
        v ≠ "custom_openai" →
        lookupProv cfg.chatModelProviders v = some (mi :: rest) →
        chatProviderOnChange cfg st v =
          some { st with selectedChatModelProvider := some v
                         selectedChatModel := some mi.name })
  ∧ (∀ (cfg : SettingsType) (st : DialogState) (v : String)
        (mi : ModelInfo) (rest : List ModelInfo),
        lookupProv cfg.embeddingModelProviders v = some (mi :: rest) →
        embeddingProviderOnChange cfg st v =
          some { st with selectedEmbeddingModelProvider := some v
                         selectedEmbeddingModel := some mi.name }) := by
  refine ⟨?_, ?_, ?_⟩
  · intro cfg st
    rfl
  · intro cfg st v mi rest hv hl
    unfold chatProviderOnChange
    simp [hv, hl]
  · intro cfg st v mi rest hl
    unfold embeddingProviderOnChange
    simp [hl]

/-- Witness for C4 (amended) at the concrete document `docAB`. -/
theorem c4_provider_selection_amended_witness :
    chatProviderOnChange docAB initialState "custom_openai" =
      some { initialState with selectedChatModelProvider := some "custom_openai"
                               selectedChatModel := some "" }
  ∧ chatProviderOnChange docAB initialState "a" =
      some { initialState with selectedChatModelProvider := some "a"
                               selectedChatModel := some "x" }
  ∧ embeddingProviderOnChange docAB initialState "a" =
      some { initialState with selectedEmbeddingModelProvider := some "a"
                               selectedEmbeddingModel := some "x" } :=
  ⟨c4_provider_selection_amended.1 docAB initialState,
   c4_provider_selection_amended.2.1 docAB initialState "a"
     { name := "x", displayName := "X" } [] (by decide) (by decide),
   c4_provider_selection_amended.2.2 docAB initialState "a"
     { name := "x", displayName := "X" } [] (by decide)⟩

/-- C8: for every save run over a loaded document, the handler issues the
POST and then, whether the submit resolves or rejects, closes the dialog,
triggers the reload, and leaves the component in the very same state in
both cases (so a failure never produces a distinct user-visible state);
the catch branch logs exactly in the rejecting case. -/
theorem c8_save_unconditional_close_reload (st : DialogState)
    (storage : Storage) (h : st.config.isSome = true)
    (submit : Except Unit Unit) :
    (handleSubmit st storage submit).submitted = true
  ∧ (handleSubmit st storage submit).state
      = { st with isUpdating := false, isOpen := false }
  ∧ (handleSubmit st storage submit).state.isOpen = false
  ∧ (handleSubmit st storage submit).reloaded = true
  ∧ ((handleSubmit st storage submit).loggedSaveError = true
      ↔ submit = Except.error ()) := by
  rcases hc : st.config with _ | doc
  · rw [hc] at h
    simp at h
  · rcases submit with e | u
    · refine ⟨?_, ?_, ?_, ?_, ?_⟩ <;> simp [handleSubmit, hc]
    · refine ⟨?_, ?_, ?_, ?_, ?_⟩ <;> simp [handleSubmit, hc]

/-- Witness for C8 at the concrete ready state `stC2`, both outcomes. -/
theorem c8_save_unconditional_close_reload_witness :
    ((handleSubmit stC2 emptyStorage (Except.ok ())).state.isOpen = false
      ∧ (handleSubmit stC2 emptyStorage (Except.ok ())).reloaded = true)
  ∧ ((handleSubmit stC2 emptyStorage (Except.error ())).state.isOpen = false
      ∧ (handleSubmit stC2 emptyStorage (Except.error ())).reloaded = true) :=
  ⟨⟨(c8_save_unconditional_close_reload stC2 emptyStorage (by decide)
        (Except.ok ())).2.2.1,
    (c8_save_unconditional_close_reload stC2 emptyStorage (by decide)
        (Except.ok ())).2.2.2.1⟩,
   ⟨(c8_save_unconditional_close_reload stC2 emptyStorage (by decide)
        (Except.error ())).2.2.1,
    (c8_save_unconditional_close_reload stC2 emptyStorage (by decide)
        (Except.error ())).2.2.2.1⟩⟩

/-- C9: when no configuration document is loaded, the save handler returns
immediately for either potential submit outcome: no POST is issued, the
storage is unchanged, the dialog stays open with the whole state
unchanged, and no reload happens. -/
theorem c9_no_config_noop (st : DialogState) (storage : Storage)
    (h : st.config = none) (submit : Except Unit Unit) :
    handleSubmit st storage submit =
      { state := st, storage := storage, submitted := false
        reloaded := false, loggedSaveError := false } := by
  unfold handleSubmit
  rw [h]

/-- Witness for C9 at the initial state, which has no document. -/
theorem c9_no_config_noop_witness :
    handleSubmit initialState emptyStorage (Except.ok ()) =
      { state := initialState, storage := emptyStorage, submitted := false
        reloaded := false, loggedSaveError := false } :=
  c9_no_config_noop initialState emptyStorage rfl (Except.ok ())

/-- C10: the selection handlers are not total: for the document `docAB`
(provider `b` has an empty model list) selecting `b` in the chat provider
selector reaches the throwing read of element 0, and the embedding
provider selector, having no custom-endpoint guard, throws for every
provider value whose model list is empty, the literal `custom_openai`
included. -/
theorem c10_handlers_not_total :
    (∀ st : DialogState, chatProviderOnChange docAB st "b" = none)
  ∧ (∀ (cfg : SettingsType) (st : DialogState) (v : String),
        lookupProv cfg.embeddingModelProviders v = some [] →
        embeddingProviderOnChange cfg st v = none) := by
  constructor
  · intro st
    rfl
  · intro cfg st v hl
    unfold embeddingProviderOnChange
    simp [hl]

/-- Witness for C10: the chat handler fails on provider `b` of `docAB`,
and the embedding handler fails on `custom_openai` of `docC10`. -/
theorem c10_handlers_not_total_witness :
    chatProviderOnChange docAB initialState "b" = none
  ∧ embeddingProviderOnChange docC10 initialState "custom_openai" = none :=
  ⟨c10_handlers_not_total.1 initialState,
   c10_handlers_not_total.2 docC10 initialState "custom_openai" (by decide)⟩
